import Mathlib

/-!
Verification of the scrape-and-normalize pipeline of the basketball
player-stats repository (`player_stats.py`).

Modelling conventions:
* Python strings are `List Char` (`Str` below); the relevant Python string
  operations (`split` with a count, `strip`, substring containment,
  `isdigit`, `lower`) are translated as explicit list functions.
* pandas Series are `List` values; a missing entry (`NaN`) in a string
  column is `Option Str` with `none`.  `pd.to_numeric(·, errors="coerce")`
  is translated for integer literals (optional sign followed by digits);
  the cells the pipeline handles are integer literals or junk text.
* float `NaN` results are `Option.none`; float arithmetic is carried out
  in `ℚ` (the constants 0.44, 0.5, 0.4, 0.7, 0.3 become exact rationals).
* `pd.Series.str.split(c, n=1, expand=True)` yields one column when no
  entry contains the separator and two otherwise; reading column 1 of a
  one-column frame raises `KeyError`.  The series-level parsers below
  return `Except Unit` to reflect that raise.
-/

abbrev Str := List Char

/-- One step of Python `s.split(c, 1)`: the part before the first `c`, and
the remainder after it (`none` when `c` does not occur). -/
def splitFirst (c : Char) : Str → Str × Option Str
  | [] => ([], none)
  | x :: xs =>
    if x = c then ([], some xs)
    else
      let r := splitFirst c xs
      (x :: r.1, r.2)

/-- Python `s.split(c)` with no count: every separator splits. -/
def splitAll (c : Char) : Str → List Str
  | [] => [[]]
  | x :: xs =>
    match splitAll c xs with
    | [] => [[x]]
    | h :: t => if x = c then [] :: h :: t else (x :: h) :: t

/-- Numeric value of a string of decimal digits. -/
def digitsToNat (s : Str) : ℕ :=
  s.foldl (fun a ch => 10 * a + (ch.toNat - 48)) 0

/-- Translation of `pd.to_numeric(·, errors="coerce")` for the integer
literals the scraped cells contain: optional leading minus sign followed
by decimal digits; anything else coerces to `none` (float `NaN`). -/
def pyToNumeric (s : Str) : Option ℤ :=
  match s with
  | '-' :: rest =>
    if rest.isEmpty then none
    else if rest.all Char.isDigit then some (-(digitsToNat rest : ℤ))
    else none
  | _ =>
    if s.isEmpty then none
    else if s.all Char.isDigit then some ((digitsToNat s : ℤ))
    else none

/-- Python `s.strip()`: drop whitespace from both ends. -/
def pyStripWS (s : Str) : Str :=
  ((s.dropWhile Char.isWhitespace).reverse.dropWhile Char.isWhitespace).reverse

/-- Python `s.strip(c)` for a single strip character `c`. -/
def stripChar (c : Char) (s : Str) : Str :=
  ((s.dropWhile (· = c)).reverse.dropWhile (· = c)).reverse

/-- Python substring containment `pat in s`. -/
def containsSeq (pat : Str) : Str → Bool
  | [] => pat.isEmpty
  | x :: xs => pat.isPrefixOf (x :: xs) || containsSeq pat xs

/-- Python `s.isdigit()` restricted to ASCII digits: nonempty and all digits. -/
def pyIsDigitStr (s : Str) : Bool :=
  !s.isEmpty && s.all Char.isDigit

/-!  Row Normalizer (`scrape_player_game_log`, rows → header/data).  -/

/-- Failure cases of the row-normalization step of
`scrape_player_game_log` (`ValueError` raises in the source). -/
inductive ScrapeErr where
  | noRows
  | noConsistent
deriving DecidableEq

/-- The rows surviving the `len(cells) <= 1` drop. -/
def wideRows (rows : List (List Str)) : List (List Str) :=
  rows.filter (fun r => 1 < r.length)

/-- `max(len(r) for r in rows)`: largest cell count over the rows. -/
def maxLen (rows : List (List Str)) : ℕ :=
  (rows.map List.length).foldr max 0

/-- Row-normalization core of `scrape_player_game_log`: drop rows with one
or fewer cells, keep exactly the rows whose cell count equals the largest
cell count, and split the survivors into header and data rows. -/
def scrapeTableRows (rows : List (List Str)) :
    Except ScrapeErr (List Str × List (List Str)) :=
  let rs := wideRows rows
  if rs.isEmpty then .error .noRows
  else
    let same := rs.filter (fun r => r.length = maxLen rs)
    if same.isEmpty then .error .noConsistent
    else .ok (same.headD [], same.tail)

/-- Number of occurrences of `n` in `ns`. -/
def occCount (n : ℕ) (ns : List ℕ) : ℕ :=
  (ns.filter (· = n)).length

/-- A most-frequent element of `ns` (earliest such element on ties). -/
def listMode (ns : List ℕ) : Option ℕ :=
  ns.foldr
    (fun n acc =>
      match acc with
      | none => some n
      | some m => if occCount m ns < occCount n ns then some n else some m)
    none

/-- Row filter as the spec's words describe it (for comparison with
`scrapeTableRows`): keep the rows whose cell count equals the modal
(maximum-occurring) cell count among the remaining rows. -/
def specModalKeptRows (rows : List (List Str)) : List (List Str) :=
  let rs := wideRows rows
  match listMode (rs.map List.length) with
  | none => []
  | some m => rs.filter (fun r => r.length = m)

/-!  Shooting-split and result parsing (`split_made_attempts`,
`add_parsed_columns`).  -/

/-- The `"0-0"` fill value used by `split_made_attempts`. -/
def zeroDashZero : Str := ['0', '-', '0']

/-- Per-cell value of `split_made_attempts` in the two-column case: split
on the first hyphen, coerce each side to an integer, defaulting a missing
or non-numeric side to 0. -/
def maPairOf (s : Str) : ℤ × ℤ :=
  let p := splitFirst '-' s
  ((pyToNumeric p.1).getD 0, ((p.2.bind pyToNumeric).getD 0))

/-- Number of columns a cell contributes to the
`str.split("-", n=1, expand=True)` frame. -/
def maColCount (s : Str) : ℕ :=
  match (splitFirst '-' s).2 with
  | none => 1
  | some _ => 2

/-- `split_made_attempts`: fill missing cells with `"0-0"`, split each on
the first hyphen, coerce both sides with 0 as the default.  When the
expanded split frame has fewer than two columns (empty series, or no
entry contains a hyphen) reading column 1 raises, modelled as `.error`. -/
def split_made_attempts (col : List (Option Str)) : Except Unit (List (ℤ × ℤ)) :=
  let filled := col.map (fun o => o.getD zeroDashZero)
  if filled.isEmpty then .error ()
  else if (filled.map maColCount).foldr max 0 < 2 then .error ()
  else .ok (filled.map maPairOf)

/-- Raw numeric coercion of the two sides of one `Result` cell (no fill
value here: a missing cell gives `none` on both sides). -/
def resultRowNums (o : Option Str) : Option ℤ × Option ℤ :=
  match o with
  | none => (none, none)
  | some s =>
    let p := splitFirst '-' s
    (pyToNumeric p.1, p.2.bind pyToNumeric)

/-- Columns contributed by one `Result` cell to the expanded split frame. -/
def resultColCount (o : Option Str) : ℕ :=
  match o with
  | none => 1
  | some s => maColCount s

/-- (team score, opponent score) of one `Result` cell after the
`fillna(0).astype(int)` coercions. -/
def resultScorePair (o : Option Str) : ℤ × ℤ :=
  (((resultRowNums o).1).getD 0, ((resultRowNums o).2).getD 0)

/-- The `Result` parsing of `add_parsed_columns`: split each result on the
first hyphen, coerce each side with 0 as the default.  As with
`split_made_attempts`, a split frame with fewer than two columns makes
the column-1 read raise, modelled as `.error`. -/
def parseResultColumn (col : List (Option Str)) : Except Unit (List (ℤ × ℤ)) :=
  if col.isEmpty then .error ()
  else if (col.map resultColCount).foldr max 0 < 2 then .error ()
  else .ok (col.map resultScorePair)

/-- `margin = team_score - opp_score` for one parsed result pair. -/
def marginOf (p : ℤ × ℤ) : ℤ := p.1 - p.2

/-- `win = margin > 0` for one parsed result pair. -/
def winOf (p : ℤ × ℤ) : Bool := decide (0 < marginOf p)

/-!  Game records and per-game metrics (`add_parsed_columns`,
`add_game_advanced_metrics`).  -/

/-- One normalized game record: the integer box-score columns after
`add_parsed_columns` (coerced with 0 defaults), plus the opponent name. -/
structure Game where
  MIN : ℤ
  PTS : ℤ
  RO : ℤ
  RD : ℤ
  AS : ℤ
  ST : ℤ
  BS : ℤ
  TO : ℤ
  PF : ℤ
  reb : ℤ
  two_made : ℤ
  two_att : ℤ
  three_made : ℤ
  three_att : ℤ
  ft_made : ℤ
  ft_att : ℤ
  team_score : ℤ
  opp_score : ℤ
  againstTeam : Str
deriving DecidableEq

/-- `fgm = two_made + three_made`. -/
def Game.fgm (g : Game) : ℤ := g.two_made + g.three_made

/-- `fga = two_att + three_att`. -/
def Game.fga (g : Game) : ℤ := g.two_att + g.three_att

/-- `margin = team_score - opp_score`. -/
def Game.margin (g : Game) : ℤ := g.team_score - g.opp_score

/-- `win = margin > 0`. -/
def Game.win (g : Game) : Bool := decide (0 < g.margin)

/-- `efg = (fgm + 0.5*three_made)/fga` when `fga > 0`, else `NaN`. -/
def Game.efg (g : Game) : Option ℚ :=
  if 0 < g.fga then
    some (((g.fgm : ℚ) + (1 / 2) * (g.three_made : ℚ)) / (g.fga : ℚ))
  else none

/-- `ts = PTS/(2*(fga + 0.44*ft_att))` when the denominator is positive,
else `NaN`. -/
def Game.ts (g : Game) : Option ℚ :=
  if 0 < (g.fga : ℚ) + (11 / 25) * (g.ft_att : ℚ) then
    some ((g.PTS : ℚ) / (2 * ((g.fga : ℚ) + (11 / 25) * (g.ft_att : ℚ))))
  else none

/-- The game-score composite of `add_game_advanced_metrics`. -/
def Game.gameScore (g : Game) : ℚ :=
  (g.PTS : ℚ) + (2 / 5) * (g.fgm : ℚ) - (7 / 10) * (g.fga : ℚ)
    - (2 / 5) * ((g.ft_att : ℚ) - (g.ft_made : ℚ)) + (7 / 10) * (g.RO : ℚ)
    + (3 / 10) * (g.RD : ℚ) + (g.ST : ℚ) + (7 / 10) * (g.AS : ℚ)
    + (7 / 10) * (g.BS : ℚ) - (2 / 5) * (g.PF : ℚ) - (g.TO : ℚ)

/-- `pts_per_36 = PTS/MIN*36` when `MIN > 0`, else `NaN`. -/
def Game.ptsPer36 (g : Game) : Option ℚ :=
  if 0 < g.MIN then some ((g.PTS : ℚ) / (g.MIN : ℚ) * 36) else none

/-- `fga_per_36 = fga/MIN*36` when `MIN > 0`, else `NaN`. -/
def Game.fgaPer36 (g : Game) : Option ℚ :=
  if 0 < g.MIN then some ((g.fga : ℚ) / (g.MIN : ℚ) * 36) else none

/-!  Means (pandas `.mean()` semantics).  -/

/-- Arithmetic mean of a list of rationals (`sum/length`). -/
def meanQ (l : List ℚ) : ℚ := l.sum / (l.length : ℚ)

/-- pandas `Series.mean()` over complete values: `NaN` on an empty
series, the arithmetic mean otherwise. -/
def pdMean (l : List ℚ) : Option ℚ :=
  if l.isEmpty then none else some (meanQ l)

/-- pandas `Series.mean()` with the default `skipna=True`: missing values
are excluded, and a series with no valid entry gives `NaN`. -/
def meanOpt (l : List (Option ℚ)) : Option ℚ :=
  pdMean (l.filterMap id)

/-!  Season aggregation (`summarize_overall`).  -/

/-- Sum of one integer column over the season. -/
def totOf (df : List Game) (f : Game → ℤ) : ℤ := (df.map f).sum

/-- `FGA = 2FGA + 3FGA` over the season. -/
def sumFGA (df : List Game) : ℤ :=
  totOf df (fun g => g.two_att) + totOf df (fun g => g.three_att)

/-- `FGM = 2FGM + 3FGM` over the season. -/
def sumFGM (df : List Game) : ℤ :=
  totOf df (fun g => g.two_made) + totOf df (fun g => g.three_made)

/-- `3FGM` over the season. -/
def sum3FGM (df : List Game) : ℤ := totOf df (fun g => g.three_made)

/-- `FTA` over the season. -/
def sumFTA (df : List Game) : ℤ := totOf df (fun g => g.ft_att)

/-- `PTS` over the season. -/
def sumPTS (df : List Game) : ℤ := totOf df (fun g => g.PTS)

/-- Season `eFG%` from summed totals: `(FGM + 0.5*3FGM)/FGA` when
`FGA > 0`, else `NaN`. -/
def seasonEfg (df : List Game) : Option ℚ :=
  if 0 < sumFGA df then
    some (((sumFGM df : ℚ) + (1 / 2) * (sum3FGM df : ℚ)) / (sumFGA df : ℚ))
  else none

/-- The season TS denominator `FGA + 0.44*FTA` from summed totals. -/
def seasonTsDenom (df : List Game) : ℚ :=
  (sumFGA df : ℚ) + (11 / 25) * (sumFTA df : ℚ)

/-- Season `TS%` from summed totals: `PTS/(2*(FGA + 0.44*FTA))` when the
denominator is positive, else `NaN`. -/
def seasonTs (df : List Game) : Option ℚ :=
  if 0 < seasonTsDenom df then
    some ((sumPTS df : ℚ) / (2 * seasonTsDenom df))
  else none

/-- Per-game mean of one stat column (`NaN` on an empty season). -/
def perGameOf (df : List Game) (f : Game → ℤ) : Option ℚ :=
  pdMean (df.map (fun g => ((f g : ℚ))))

/-- Per-36 season rate of one stat column: the per-game mean divided by
the mean minutes, times 36; `NaN` when there are no games. -/
def per36Of (df : List Game) (f : Game → ℤ) : Option ℚ :=
  if df.isEmpty then none
  else
    some (meanQ (df.map (fun g => ((f g : ℚ))))
      / meanQ (df.map (fun g => ((g.MIN : ℚ)))) * 36)

/-- The aggregate season view returned by `summarize_overall`. -/
structure SeasonSummary where
  games : ℕ
  totalMinutes : ℤ
  perGamePTS : Option ℚ
  perGameReb : Option ℚ
  perGameAS : Option ℚ
  perGameST : Option ℚ
  perGameBS : Option ℚ
  perGameTO : Option ℚ
  perGamePF : Option ℚ
  per36PTS : Option ℚ
  per36Reb : Option ℚ
  per36AS : Option ℚ
  per36ST : Option ℚ
  per36BS : Option ℚ
  per36TO : Option ℚ
  per36PF : Option ℚ
  totPTS : ℤ
  totReb : ℤ
  totAS : ℤ
  totST : ℤ
  totBS : ℤ
  totTO : ℤ
  totPF : ℤ
  tot2FGM : ℤ
  tot2FGA : ℤ
  tot3FGM : ℤ
  tot3FGA : ℤ
  totFTM : ℤ
  totFTA : ℤ
  totFGM : ℤ
  totFGA : ℤ
  efg : Option ℚ
  ts : Option ℚ
  avgGameScore : Option ℚ

/-- `summarize_overall`: totals are sums, per-game stats are means,
per-36 rates divide the per-game mean by the mean minutes, and the season
percentages come from summed totals. -/
def summarize_overall (df : List Game) : SeasonSummary where
  games := df.length
  totalMinutes := totOf df (fun g => g.MIN)
  perGamePTS := perGameOf df (fun g => g.PTS)
  perGameReb := perGameOf df (fun g => g.reb)
  perGameAS := perGameOf df (fun g => g.AS)
  perGameST := perGameOf df (fun g => g.ST)
  perGameBS := perGameOf df (fun g => g.BS)
  perGameTO := perGameOf df (fun g => g.TO)
  perGamePF := perGameOf df (fun g => g.PF)
  per36PTS := per36Of df (fun g => g.PTS)
  per36Reb := per36Of df (fun g => g.reb)
  per36AS := per36Of df (fun g => g.AS)
  per36ST := per36Of df (fun g => g.ST)
  per36BS := per36Of df (fun g => g.BS)
  per36TO := per36Of df (fun g => g.TO)
  per36PF := per36Of df (fun g => g.PF)
  totPTS := sumPTS df
  totReb := totOf df (fun g => g.reb)
  totAS := totOf df (fun g => g.AS)
  totST := totOf df (fun g => g.ST)
  totBS := totOf df (fun g => g.BS)
  totTO := totOf df (fun g => g.TO)
  totPF := totOf df (fun g => g.PF)
  tot2FGM := totOf df (fun g => g.two_made)
  tot2FGA := totOf df (fun g => g.two_att)
  tot3FGM := sum3FGM df
  tot3FGA := totOf df (fun g => g.three_att)
  totFTM := totOf df (fun g => g.ft_made)
  totFTA := sumFTA df
  totFGM := sumFGM df
  totFGA := sumFGA df
  efg := seasonEfg df
  ts := seasonTs df
  avgGameScore := pdMean (df.map Game.gameScore)

/-!  Splits and correlations (`summarize_splits`).  -/

/-- The averaged stat vector of one win/loss or opponent group
(pandas `groupby(...).mean()`, which skips missing values). -/
structure GroupStats where
  PTS : Option ℚ
  reb : Option ℚ
  AS : Option ℚ
  ST : Option ℚ
  BS : Option ℚ
  TO : Option ℚ
  ts : Option ℚ
  efg : Option ℚ
  gameScore : Option ℚ
deriving DecidableEq

/-- Group means of the split stat vector. -/
def groupStats (gs : List Game) : GroupStats where
  PTS := pdMean (gs.map (fun g => ((g.PTS : ℚ))))
  reb := pdMean (gs.map (fun g => ((g.reb : ℚ))))
  AS := pdMean (gs.map (fun g => ((g.AS : ℚ))))
  ST := pdMean (gs.map (fun g => ((g.ST : ℚ))))
  BS := pdMean (gs.map (fun g => ((g.BS : ℚ))))
  TO := pdMean (gs.map (fun g => ((g.TO : ℚ))))
  ts := meanOpt (gs.map Game.ts)
  efg := meanOpt (gs.map Game.efg)
  gameScore := pdMean (gs.map Game.gameScore)

/-- The games falling on side `b` of the win/loss grouping. -/
def winGroup (df : List Game) (b : Bool) : List Game :=
  df.filter (fun g => g.win == b)

/-- The games against opponent `t`. -/
def oppGroup (df : List Game) (t : Str) : List Game :=
  df.filter (fun g => g.againstTeam == t)

/-- `groupby("win").mean()`: one stat vector per present win/loss value. -/
def winSplit (df : List Game) : List (Bool × GroupStats) :=
  [false, true].filterMap
    (fun b =>
      let g := winGroup df b
      if g.isEmpty then none else some (b, groupStats g))

/-- `groupby("Against Team").mean()` viewed as a lookup by opponent. -/
def oppSplitFor (df : List Game) (t : Str) : Option GroupStats :=
  let g := oppGroup df t
  if g.isEmpty then none else some (groupStats g)

/-- Σ (x - mean xs)·(y - mean ys) over the zipped series. -/
def covSum (xs ys : List ℚ) : ℚ :=
  (((xs.map (fun x => x - meanQ xs)).zip (ys.map (fun y => y - meanQ ys))).map
    (fun p => p.1 * p.2)).sum

/-- Σ (x - mean xs)² over the series. -/
def varSum (xs : List ℚ) : ℚ := covSum xs xs

/-- Pearson correlation with pandas `Series.corr` float semantics: `NaN`
(here `none`) with fewer than two observations or a zero-variance series
(0/0 division), otherwise the real value `cov/(σx·σy)`. -/
noncomputable def pearson (xs ys : List ℚ) : Option ℝ :=
  if xs.length < 2 ∨ varSum xs = 0 ∨ varSum ys = 0 then none
  else
    some ((covSum xs ys : ℝ)
      / (Real.sqrt ((varSum xs : ℚ) : ℝ) * Real.sqrt ((varSum ys : ℚ) : ℝ)))

/-- The value returned by `summarize_splits`. -/
structure SplitSummary where
  winsVsLosses : List (Bool × GroupStats)
  byOpponent : Str → Option GroupStats
  corrMINPTS : Option ℝ
  corrMINGameScore : Option ℝ

/-- `summarize_splits`: win/loss and opponent group means plus the two
minutes correlations. -/
noncomputable def summarize_splits (df : List Game) : SplitSummary where
  winsVsLosses := winSplit df
  byOpponent := oppSplitFor df
  corrMINPTS :=
    pearson (df.map (fun g => ((g.MIN : ℚ)))) (df.map (fun g => ((g.PTS : ℚ))))
  corrMINGameScore :=
    pearson (df.map (fun g => ((g.MIN : ℚ)))) (df.map Game.gameScore)

/-!  Name lookup (`find_usbasket_player_url_by_name`).  -/

/-- The URL pattern the final redirect location must contain. -/
def searchPattern : Str := "basketball.usbasket.com/player/".toList

/-- `find_usbasket_player_url_by_name`.  The network interaction is a
parameter: `resp` is either the final redirect location of the search
request or an exception (`HTTPError`/`URLError`/anything — the source
swallows every exception).  The name is stripped first; an empty stripped
name, a failed request, or a final location without the player-URL
pattern all give `none`; a match is returned with query string and
fragment stripped. -/
def find_usbasket_player_url_by_name (name : Str) (resp : Except Unit Str) :
    Option Str :=
  let n := pyStripWS name
  if n.isEmpty then none
  else
    match resp with
    | .error _ => none
    | .ok finalUrl =>
      if containsSeq searchPattern finalUrl then
        some ((splitFirst '#' (splitFirst '?' finalUrl).1).1)
      else none

/-!  Player-URL normalization (`_extract_usbasket_from_player_url`).  -/

/-- The remainder of a string after the first `://`, if any. -/
def afterSchemeSep : Str → Option Str
  | [] => none
  | x :: xs =>
    if x = ':' ∧ ('/' :: ['/']).isPrefixOf xs then some (xs.drop 2)
    else afterSchemeSep xs

/-- Path of a URL as `urlparse` reports it, after the query string has
already been cut: drop the fragment, then everything up to the end of the
`scheme://netloc` part (the whole string is the path when no `://`
occurs).  Modelled for the URL shapes the function documents. -/
def urlPath (s : Str) : Str :=
  let s1 := (splitFirst '#' s).1
  match afterSchemeSep s1 with
  | none => s1
  | some rest => rest.dropWhile (· ≠ '/')

/-- `parsed.path.strip("/").split("/")` after dropping the query string. -/
def pathPartsOf (candidate : Str) : List Str :=
  splitAll '/' (stripChar '/' (urlPath (splitFirst '?' candidate).1))

/-- The canonical USBasket player URL built from slug and id. -/
def canonicalUrl (slug pid : Str) : Str :=
  "https://basketball.usbasket.com/player/".toList ++ slug ++ '/' :: pid

/-- `_extract_usbasket_from_player_url`: require at least three path
segments, first segment `player` case-insensitively, last segment all
digits; rebuild the canonical URL from segment 1 and the last segment.
The source returns `None` on a mismatch (it raises nothing). -/
def extract_usbasket_from_player_url (candidate : Str) : Option Str :=
  match pathPartsOf candidate with
  | p0 :: p1 :: p2 :: rest =>
    if p0.map Char.toLower = "player".toList then
      let pid := (p2 :: rest).getLastD []
      if pyIsDigitStr pid then some (canonicalUrl p1 pid) else none
    else none
  | _ => none

/-- Observable outcomes of the URL normalization, separating the two
failure representations the spec distinguishes: a raised
`InvalidURLError` versus a returned absent value. -/
inductive ExtractOutcome where
  | ok (url : Str)
  | invalidURLError
  | absent
deriving DecidableEq

/-- The outcome the Python function actually produces: its failure path
is `return None` (there is no raise statement in it), so a mismatch is
`absent`, never `invalidURLError`. -/
def extractOutcome (candidate : Str) : ExtractOutcome :=
  match extract_usbasket_from_player_url candidate with
  | some u => .ok u
  | none => .absent

/-!  Table Locator (`_find_latest_season_game_log_table`).  -/

/-- One candidate `<table class="my_Title">` of the parsed document: the
cell texts of its `my_Headers` rows, and the text of the nearest
preceding `<h4 class="plstats-head">` season heading (if any). -/
structure HTMLTable where
  headerRows : List (List Str)
  seasonHeadText : Option Str
deriving DecidableEq

/-- `_is_game_log_table`: some header row contains, lowercased, all of
`date`, `against team` and `result`. -/
def is_game_log_table (t : HTMLTable) : Bool :=
  t.headerRows.any
    (fun hr =>
      let hs := hr.map (List.map Char.toLower)
      hs.contains ("date".toList) && hs.contains ("against team".toList)
        && hs.contains ("result".toList))

/-- First run of four consecutive digits in a string (`re.search` with a
four-digit group). -/
def find4Digits : Str → Option Str
  | c1 :: c2 :: c3 :: c4 :: rest =>
    if c1.isDigit && c2.isDigit && c3.isDigit && c4.isDigit then
      some [c1, c2, c3, c4]
    else find4Digits (c2 :: c3 :: c4 :: rest)
  | _ => none

/-- Season year of a candidate: first 4-digit number of the season
heading text, absent when there is no heading or no such number. -/
def extractYear (o : Option Str) : Option ℕ :=
  o.bind (fun s => (find4Digits s).map digitsToNat)

/-- The sort key `(year is not None, year or 0)` of the source, as a
comparison: `keyLe a b` iff the key tuple of `a` is ≤ that of `b`. -/
def keyLe : Option ℕ → Option ℕ → Bool
  | none, _ => true
  | some _, none => false
  | some x, some y => decide (x ≤ y)

/-- The `(year, table)` candidate list, in document order, restricted to
tables passing the game-log header filter. -/
def tableCandidates (tables : List HTMLTable) : List (Option ℕ × HTMLTable) :=
  tables.filterMap
    (fun t =>
      if is_game_log_table t then some (extractYear t.seasonHeadText, t)
      else none)

/-- Insertion step of Python `list.sort(key=_key, reverse=True)`:
descending by key, stable (an earlier element precedes equal-key later
ones). -/
def insertDescK (x : Option ℕ × HTMLTable) :
    List (Option ℕ × HTMLTable) → List (Option ℕ × HTMLTable)
  | [] => [x]
  | y :: ys => if keyLe y.1 x.1 then x :: y :: ys else y :: insertDescK x ys

/-- Stable descending sort by the season-year key. -/
def sortDescK : List (Option ℕ × HTMLTable) → List (Option ℕ × HTMLTable)
  | [] => []
  | x :: xs => insertDescK x (sortDescK xs)

/-- The candidate an argmax-style scan selects: highest key, earliest on
ties.  Proved below to be the head of the stable descending sort. -/
def selectMaxK : List (Option ℕ × HTMLTable) → Option (Option ℕ × HTMLTable)
  | [] => none
  | x :: xs =>
    match selectMaxK xs with
    | none => some x
    | some b => if keyLe b.1 x.1 then some x else some b

/-- `_find_latest_season_game_log_table`: filter to game-log candidates,
sort descending by `(year is not None, year or 0)` and return the table
of the first entry (`None` when no candidate survives). -/
def find_latest_season_game_log_table (tables : List HTMLTable) :
    Option HTMLTable :=
  ((sortDescK (tableCandidates tables)).head?).map (fun c => c.2)

/-!  Concrete fixtures used by the claim theorems and witnesses.  -/

/-- Rows with cell counts [3, 3, 5]: modal count 3, maximum count 5. -/
def rowsModalEx : List (List Str) :=
  [[['a'], ['b'], ['c']], [['d'], ['e'], ['f']],
   [['p'], ['q'], ['r'], ['s'], ['t']]]

/-- Header row of the [5, 3, 5, 5, 2] fixture. -/
def row5H : List Str := [['h'], ['1'], ['2'], ['3'], ['4']]

/-- The dropped 3-cell row of the [5, 3, 5, 5, 2] fixture. -/
def row3X : List Str := [['x'], ['y'], ['z']]

/-- First data row of the [5, 3, 5, 5, 2] fixture. -/
def row5D1 : List Str := [['d'], ['1'], ['2'], ['3'], ['4']]

/-- Second data row of the [5, 3, 5, 5, 2] fixture. -/
def row5D2 : List Str := [['e'], ['1'], ['2'], ['3'], ['4']]

/-- The dropped 2-cell row of the [5, 3, 5, 5, 2] fixture. -/
def row2Z : List Str := [['u'], ['v']]

/-- Extracted row sequence with cell counts [5, 3, 5, 5, 2]. -/
def rows53552 : List (List Str) := [row5H, row3X, row5D1, row5D2, row2Z]

/-- A game record with every numeric column 0. -/
def game0 : Game where
  MIN := 0
  PTS := 0
  RO := 0
  RD := 0
  AS := 0
  ST := 0
  BS := 0
  TO := 0
  PF := 0
  reb := 0
  two_made := 0
  two_att := 0
  three_made := 0
  three_att := 0
  ft_made := 0
  ft_att := 0
  team_score := 0
  opp_score := 0
  againstTeam := []

/-- Low-volume game: 5-of-20 from two, per-game eFG% = 1/4. -/
def c2Game1 : Game := { game0 with two_made := 5, two_att := 20 }

/-- High-volume game: 30-of-70 from two and 10-of-10 from three,
per-game eFG% = 9/16. -/
def c2Game2 : Game :=
  { game0 with two_made := 30, two_att := 70, three_made := 10, three_att := 10 }

/-- Two-game season with summed fga = 100, fgm = 45, three_made = 10. -/
def c2Fix : List Game := [c2Game1, c2Game2]

/-- 10 points in 10 minutes: per-game pts-per-36 = 36. -/
def c3Game1 : Game := { game0 with MIN := 10, PTS := 10 }

/-- 10 points in 30 minutes: per-game pts-per-36 = 12. -/
def c3Game2 : Game := { game0 with MIN := 30, PTS := 10 }

/-- Two-game season whose minutes differ game-to-game. -/
def c3Fix : List Game := [c3Game1, c3Game2]

/-- A game with fga = 2 and per-game eFG% = 1/2. -/
def c6Game1 : Game := { game0 with two_made := 1, two_att := 2 }

/-- Two-game group: one eFG% of 1/2 and one missing eFG%. -/
def c6Fix : List Game := [c6Game1, game0]

/-- Constant-minutes game, 5 points. -/
def c7Game1 : Game := { game0 with MIN := 10, PTS := 5 }

/-- Constant-minutes game, 9 points. -/
def c7Game2 : Game := { game0 with MIN := 10, PTS := 9 }

/-- Two-game fixture whose minutes series has zero variance. -/
def c7Fix : List Game := [c7Game1, c7Game2]

/-- A game-log header row (Date / Team / Against Team / Result / MIN). -/
def glHeader : List Str :=
  ["Date".toList, "Team".toList, "Against Team".toList, "Result".toList,
   "MIN".toList]

/-- Game-log candidate under a 2023 season heading. -/
def tbl2023 : HTMLTable := ⟨[glHeader], some "Season 2023".toList⟩

/-- Game-log candidate under a 2024 season heading. -/
def tbl2024 : HTMLTable := ⟨[glHeader], some "Season 2024".toList⟩

/-- Earlier candidate of a tied pair, season year 2024. -/
def tblTieA : HTMLTable := ⟨[glHeader], some "2024-25".toList⟩

/-- Later candidate of the tied pair, also season year 2024. -/
def tblTieB : HTMLTable :=
  ⟨[glHeader ++ ["PTS".toList]], some "Season 2024".toList⟩

/-- A URL whose first path segment is not `player`. -/
def c9BadUrl : Str := "https://example.com/team/Foo/123".toList

/-- A Eurobasket player URL of the long path shape. -/
def c9GoodUrl : Str :=
  "https://basketball.eurobasket.com/player/LeBron-James/NBA/Cleveland-Cavaliers/52424".toList

/-- The canonical USBasket URL of the player above. -/
def c9GoodCanonical : Str :=
  canonicalUrl "LeBron-James".toList "52424".toList

/-!  Helper lemmas.  -/

theorem maxLen_attained (l : List (List Str)) (h : l ≠ []) :
    ∃ r ∈ l, r.length = maxLen l := by
  induction l with
  | nil => exact absurd rfl h
  | cons x xs ih =>
    rcases eq_or_ne xs [] with hxs | hxs
    · subst hxs
      exact ⟨x, by simp, by simp [maxLen]⟩
    · obtain ⟨r, hr, hlen⟩ := ih hxs
      have hstep : maxLen (x :: xs) = max x.length (maxLen xs) := by
        simp [maxLen]
      rcases le_total (maxLen xs) x.length with hle | hle
      · exact ⟨x, by simp, by rw [hstep, max_eq_left hle]⟩
      · exact ⟨r, by simp [hr], by rw [hstep, max_eq_right hle, hlen]⟩

theorem keyLe_refl (a : Option ℕ) : keyLe a a = true := by
  cases a <;> simp [keyLe]

theorem keyLe_total (a b : Option ℕ) : keyLe a b = true ∨ keyLe b a = true := by
  cases a <;> cases b <;> simp [keyLe]
  omega

theorem keyLe_trans (a b c : Option ℕ) (hab : keyLe a b = true)
    (hbc : keyLe b c = true) : keyLe a c = true := by
  cases a <;> cases b <;> cases c <;> simp_all [keyLe]
  omega

theorem selectMaxK_eq_none (l : List (Option ℕ × HTMLTable)) :
    selectMaxK l = none ↔ l = [] := by
  cases l with
  | nil => simp [selectMaxK]
  | cons x xs =>
    simp only [selectMaxK]
    cases selectMaxK xs with
    | none => simp
    | some b =>
      by_cases hb : keyLe b.1 x.1 = true <;> simp [hb]

theorem head_insertDescK (x : Option ℕ × HTMLTable)
    (s : List (Option ℕ × HTMLTable)) :
    (insertDescK x s).head? =
      some (match s.head? with
            | none => x
            | some y => if keyLe y.1 x.1 then x else y) := by
  cases s with
  | nil => simp [insertDescK]
  | cons y ys =>
    by_cases hy : keyLe y.1 x.1 = true <;> simp [insertDescK, hy]

theorem head_sortDescK (l : List (Option ℕ × HTMLTable)) :
    (sortDescK l).head? = selectMaxK l := by
  induction l with
  | nil => simp [sortDescK, selectMaxK]
  | cons x xs ih =>
    simp only [sortDescK, selectMaxK, head_insertDescK, ih]
    cases selectMaxK xs with
    | none => rfl
    | some b => by_cases hb : keyLe b.1 x.1 = true <;> simp [hb]

theorem selectMaxK_mem (l : List (Option ℕ × HTMLTable))
    (c : Option ℕ × HTMLTable) (h : selectMaxK l = some c) : c ∈ l := by
  induction l with
  | nil => simp [selectMaxK] at h
  | cons x xs ih =>
    cases hsel : selectMaxK xs with
    | none =>
      simp only [selectMaxK, hsel] at h
      simp_all
    | some b =>
      simp only [selectMaxK, hsel] at h
      by_cases hb : keyLe b.1 x.1 = true
      · rw [if_pos hb] at h
        simp_all
      · rw [if_neg hb] at h
        have := ih (h ▸ hsel)
        simp_all

theorem selectMaxK_ge (l : List (Option ℕ × HTMLTable))
    (c : Option ℕ × HTMLTable) (h : selectMaxK l = some c) :
    ∀ d ∈ l, keyLe d.1 c.1 = true := by
  induction l generalizing c with
  | nil => simp [selectMaxK] at h
  | cons x xs ih =>
    intro d hd
    cases hsel : selectMaxK xs with
    | none =>
      simp only [selectMaxK, hsel] at h
      have hxs : xs = [] := (selectMaxK_eq_none xs).mp hsel
      subst hxs
      simp at hd h
      subst hd; subst h
      exact keyLe_refl _
    | some b =>
      simp only [selectMaxK, hsel] at h
      by_cases hb : keyLe b.1 x.1 = true
      · rw [if_pos hb] at h
        cases h
        rcases List.mem_cons.mp hd with hdx | hdxs
        · subst hdx; exact keyLe_refl _
        · exact keyLe_trans _ _ _ (ih b hsel d hdxs) hb
      · rw [if_neg hb] at h
        have hbc : b = c := by injection h
        subst hbc
        rcases List.mem_cons.mp hd with hdx | hdxs
        · subst hdx
          rcases keyLe_total d.1 b.1 with hx | hx
          · exact hx
          · exact absurd hx (by simpa using hb)
        · exact ih b hsel d hdxs

theorem selectMaxK_first (l : List (Option ℕ × HTMLTable))
    (c : Option ℕ × HTMLTable) (h : selectMaxK l = some c) :
    ∃ pre post, l = pre ++ c :: post ∧ ∀ d ∈ pre, keyLe c.1 d.1 = false := by
  induction l generalizing c with
  | nil => simp [selectMaxK] at h
  | cons x xs ih =>
    cases hsel : selectMaxK xs with
    | none =>
      simp only [selectMaxK, hsel] at h
      cases h
      exact ⟨[], xs, rfl, by simp⟩
    | some b =>
      simp only [selectMaxK, hsel] at h
      by_cases hb : keyLe b.1 x.1 = true
      · rw [if_pos hb] at h
        cases h
        exact ⟨[], xs, rfl, by simp⟩
      · rw [if_neg hb] at h
        cases h
        obtain ⟨pre, post, hsplit, hpre⟩ := ih c hsel
        refine ⟨x :: pre, post, by simp [hsplit], ?_⟩
        intro d hd
        rcases List.mem_cons.mp hd with hdx | hdpre
        · subst hdx
          simpa using hb
        · exact hpre d hdpre

theorem splitFirst_of_not_mem (c : Char) (s : Str) (h : c ∉ s) :
    splitFirst c s = (s, none) := by
  induction s with
  | nil => rfl
  | cons x xs ih =>
    have hxc : ¬x = c := by rintro rfl; exact h (by simp)
    have hxs : c ∉ xs := fun hm => h (by simp [hm])
    simp [splitFirst, hxc, ih hxs]

theorem splitFirst_append (c : Char) (x y : Str) (h : c ∉ x) :
    splitFirst c (x ++ c :: y) = (x, some y) := by
  induction x with
  | nil => simp [splitFirst]
  | cons a as ih =>
    have hac : ¬a = c := by rintro rfl; exact h (by simp)
    have has : c ∉ as := fun hm => h (by simp [hm])
    simp [splitFirst, hac, ih has]

theorem splitFirst_fst_not_mem (c : Char) (s : Str) :
    c ∉ (splitFirst c s).1 := by
  induction s with
  | nil => simp [splitFirst]
  | cons x xs ih =>
    by_cases hx : x = c
    · simp [splitFirst, hx]
    · simp only [splitFirst, if_neg hx]
      intro hmem
      rcases List.mem_cons.mp hmem with hc | hc
      · exact hx hc.symm
      · exact ih hc

theorem splitFirst_fst_subset (c a : Char) (s : Str)
    (h : a ∈ (splitFirst c s).1) : a ∈ s := by
  induction s with
  | nil => simp [splitFirst] at h
  | cons x xs ih =>
    by_cases hx : x = c
    · simp [splitFirst, hx] at h
    · simp only [splitFirst, if_neg hx] at h
      rcases List.mem_cons.mp h with ha | ha
      · simp [ha]
      · simp [ih ha]

theorem meanOpt_excludes (l : List (Option ℚ)) :
    meanOpt l = meanOpt ((l.filterMap id).map some) := by
  simp [meanOpt, List.filterMap_map]

/-!  Claim theorems.  -/

/-- Claim C1, counterexample: on remaining cell counts [3, 3, 5] the
modal count is 3, but the Row Normalizer keeps only the single length-5
row (it filters by the maximum cell count, not the modal one), so the
kept rows differ from the rows with the modal count. -/
theorem c1_counterexample :
    scrapeTableRows rowsModalEx =
      .ok ([['p'], ['q'], ['r'], ['s'], ['t']], []) ∧
    specModalKeptRows rowsModalEx =
      [[['a'], ['b'], ['c']], [['d'], ['e'], ['f']]] ∧
    ([[['p'], ['q'], ['r'], ['s'], ['t']]] : List (List Str)) ≠
      specModalKeptRows rowsModalEx := by
  refine ⟨by rfl, by rfl, by decide⟩

/-- Claim C1 as amended: after dropping rows with one or fewer cells, the
maximum (not modal) cell count over the remaining rows is computed and
exactly the rows whose cell count equals that maximum are kept, the first
kept row becoming the header and the rest data rows; on the cell counts
[5, 3, 5, 5, 2] the two filters agree: exactly the three length-5 rows
are kept and the length-3 and length-2 rows never appear. -/
theorem c1_amended :
    (∀ rows : List (List Str), wideRows rows ≠ [] →
      ∃ hd tl, scrapeTableRows rows = .ok (hd, tl) ∧
        hd :: tl = (wideRows rows).filter
          (fun r => r.length = maxLen (wideRows rows)) ∧
        ∀ r ∈ wideRows rows,
          r.length ≠ maxLen (wideRows rows) → r ∉ hd :: tl)
    ∧ scrapeTableRows rows53552 = .ok (row5H, [row5D1, row5D2])
    ∧ row3X ∉ [row5H, row5D1, row5D2]
    ∧ row2Z ∉ [row5H, row5D1, row5D2] := by
  refine ⟨?_, by rfl, by decide, by decide⟩
  intro rows hne
  obtain ⟨r, hr, hlen⟩ := maxLen_attained (wideRows rows) hne
  have hfil : (wideRows rows).filter
      (fun r => r.length = maxLen (wideRows rows)) ≠ [] := by
    apply List.ne_nil_of_mem (a := r)
    rw [List.mem_filter]
    exact ⟨hr, by simp [hlen]⟩
  obtain ⟨a, t, hat⟩ := List.exists_cons_of_ne_nil hfil
  have h1 : (wideRows rows).isEmpty = false := by
    cases hw : wideRows rows with
    | nil => exact absurd hw hne
    | cons u us => rfl
  have h2 : ((wideRows rows).filter
      (fun r => r.length = maxLen (wideRows rows))).isEmpty = false := by
    rw [hat]; rfl
  refine ⟨a, t, ?_, hat.symm, ?_⟩
  · simp only [scrapeTableRows, h1, h2, Bool.false_eq_true, if_false]
    rw [hat]
    rfl
  · intro r' hr' hrlen hmem
    rw [← hat] at hmem
    have := (List.mem_filter.mp hmem).2
    simp at this
    exact hrlen this

/-- Claim C1, witness: the general kept-rows characterization applied to
the [5, 3, 5, 5, 2] fixture. -/
theorem c1_witness :
    wideRows rows53552 ≠ [] ∧
    (∃ hd tl, scrapeTableRows rows53552 = .ok (hd, tl) ∧
      hd :: tl = (wideRows rows53552).filter
        (fun r => r.length = maxLen (wideRows rows53552)) ∧
      ∀ r ∈ wideRows rows53552,
        r.length ≠ maxLen (wideRows rows53552) → r ∉ hd :: tl) :=
  ⟨by decide, c1_amended.1 rows53552 (by decide)⟩

/-- Claim C5, counterexample: the string `"7-13-2"` does not have the
`"m-a"` shape with numeric `m` and `a`, yet `split_made_attempts` yields
(7, 0) for it — each side defaults independently, the result is not
(0, 0). -/
theorem c5_counterexample :
    split_made_attempts [some ['7', '-', '1', '3', '-', '2']] =
      .ok [(7, 0)] ∧
    ((7 : ℤ), (0 : ℤ)) ≠ ((0 : ℤ), (0 : ℤ)) :=
  ⟨rfl, by decide⟩

/-- Claim C5 as amended: whenever `split_made_attempts` returns pairs, it
parses each cell by splitting on the first hyphen and coercing each side
independently — `"x-y"` gives the numeric value of `x` (or 0) paired with
the numeric value of `y` (or 0), and a hyphen-free cell gives its numeric
value (or 0) paired with 0; a valid `"m-a"` cell therefore yields (m, a),
but a cell not matching that shape need not give (0, 0). -/
theorem c5_amended :
    (∀ col pairs, split_made_attempts col = .ok pairs →
      pairs = col.map (fun o => maPairOf (o.getD zeroDashZero)))
    ∧ (∀ x y : Str, '-' ∉ x →
        maPairOf (x ++ '-' :: y) =
          ((pyToNumeric x).getD 0, (pyToNumeric y).getD 0))
    ∧ (∀ s : Str, '-' ∉ s → maPairOf s = ((pyToNumeric s).getD 0, 0)) := by
  refine ⟨?_, ?_, ?_⟩
  · intro col pairs h
    simp only [split_made_attempts] at h
    split_ifs at h with h1 h2
    cases h
    rw [List.map_map]
    rfl
  · intro x y hx
    simp [maPairOf, splitFirst_append '-' x y hx]
  · intro s hs
    simp [maPairOf, splitFirst_of_not_mem '-' s hs]

/-- Claim C5, witness: the per-cell parse applied to the valid cell
`"7-13"` and to the hyphen-free cell `"7"`. -/
theorem c5_witness :
    maPairOf (['7'] ++ '-' :: ['1', '3']) =
      ((pyToNumeric ['7']).getD 0, (pyToNumeric ['1', '3']).getD 0) ∧
    maPairOf ['7'] = ((pyToNumeric ['7']).getD 0, 0) :=
  ⟨c5_amended.2.1 ['7'] ['1', '3'] (by decide),
   c5_amended.2.2 ['7'] (by decide)⟩

/-- Claim C10, counterexample: with the single game result `"abc"` no
result in the column contains a hyphen, so the expanded split frame has
one column and the column-1 read raises — the game is not given scores
(0, 0) and is not grouped anywhere. -/
theorem c10_counterexample :
    parseResultColumn [some ['a', 'b', 'c']] = .error () ∧
    ∀ pairs, parseResultColumn [some ['a', 'b', 'c']] ≠ .ok pairs :=
  ⟨rfl, fun _ h => Except.noConfusion h⟩

/-- Claim C10 as amended: when at least one result in the column contains
a hyphen (so the split frame has two columns), every game record whose
result parses on neither side gets team and opponent scores 0, hence
margin 0 and win = False, and the win/loss grouping places exactly the
win = False games — this one among them — in the loss group; when no
result contains a hyphen the column-1 read raises instead. -/
theorem c10_amended :
    (∀ col pairs, parseResultColumn col = .ok pairs →
      pairs = col.map resultScorePair)
    ∧ (∀ o : Option Str, resultRowNums o = (none, none) →
        resultScorePair o = (0, 0) ∧ marginOf (resultScorePair o) = 0 ∧
          winOf (resultScorePair o) = false)
    ∧ (∀ (df : List Game) (g : Game),
        g ∈ winGroup df false ↔ g ∈ df ∧ g.win = false) := by
  refine ⟨?_, ?_, ?_⟩
  · intro col pairs h
    simp only [parseResultColumn] at h
    split_ifs at h with h1 h2
    cases h
    rfl
  · intro o h
    have hp : resultScorePair o = (0, 0) := by
      simp [resultScorePair, h]
    exact ⟨hp, by simp [hp, marginOf], by simp [hp, winOf, marginOf]⟩
  · intro df g
    simp [winGroup, List.mem_filter]

/-- Claim C10, witness: the per-cell conclusions at the unparseable
result `"ab-cd"` (hyphen present, neither side numeric), and the loss
grouping characterization at a one-game list. -/
theorem c10_witness :
    resultScorePair (some ['a', 'b', '-', 'c', 'd']) = (0, 0) ∧
    winOf (resultScorePair (some ['a', 'b', '-', 'c', 'd'])) = false ∧
    (game0 ∈ winGroup [game0] false ↔ game0 ∈ [game0] ∧ game0.win = false) :=
  ⟨(c10_amended.2.1 (some ['a', 'b', '-', 'c', 'd']) (by decide)).1,
   (c10_amended.2.1 (some ['a', 'b', '-', 'c', 'd']) (by decide)).2.2,
   c10_amended.2.2 [game0] game0⟩

/-- Claim C9, counterexample: on a URL whose first path segment is not
`player` the normalization returns the absent value (`None`) — it does
not fail with an `InvalidURLError` exception (the function contains no
raise at all). -/
theorem c9_counterexample :
    extractOutcome c9BadUrl = ExtractOutcome.absent ∧
    extractOutcome c9BadUrl ≠ ExtractOutcome.invalidURLError :=
  ⟨rfl, by decide⟩

/-- Claim C9 as amended: the normalization returns an absent value (not
an `InvalidURLError` exception) whenever the URL's path does not match
`player/{slug}/.../{numeric-id}` — at least three segments, first segment
`player` case-insensitively, last segment entirely numeric — and returns
the canonical USBasket URL built from the slug (second segment) and the
numeric identifier (last segment) exactly on matching URLs. -/
theorem c9_amended :
    ∀ u r, extract_usbasket_from_player_url u = some r ↔
      (∃ p0 p1 p2 rest, pathPartsOf u = p0 :: p1 :: p2 :: rest ∧
        p0.map Char.toLower = "player".toList ∧
        pyIsDigitStr ((p2 :: rest).getLastD []) = true ∧
        r = canonicalUrl p1 ((p2 :: rest).getLastD [])) := by
  intro u r
  constructor
  · intro h
    rcases hp : pathPartsOf u with _ | ⟨p0, _ | ⟨p1, _ | ⟨p2, rest⟩⟩⟩
    · simp only [extract_usbasket_from_player_url, hp] at h
      exact Option.noConfusion h
    · simp only [extract_usbasket_from_player_url, hp] at h
      exact Option.noConfusion h
    · simp only [extract_usbasket_from_player_url, hp] at h
      exact Option.noConfusion h
    · simp only [extract_usbasket_from_player_url, hp] at h
      split_ifs at h with h1 h2
      exact ⟨p0, p1, p2, rest, rfl, h1, by simpa using h2,
        (Option.some.inj h).symm⟩
  · rintro ⟨p0, p1, p2, rest, hp, h1, h2, h3⟩
    simp only [extract_usbasket_from_player_url, hp]
    rw [if_pos h1, if_pos (by simpa using h2), h3]

/-- Claim C9, witness: the characterization at the documented long-shape
Eurobasket URL and its canonical USBasket form. -/
theorem c9_witness :
    extract_usbasket_from_player_url c9GoodUrl = some c9GoodCanonical ↔
      (∃ p0 p1 p2 rest, pathPartsOf c9GoodUrl = p0 :: p1 :: p2 :: rest ∧
        p0.map Char.toLower = "player".toList ∧
        pyIsDigitStr ((p2 :: rest).getLastD []) = true ∧
        c9GoodCanonical = canonicalUrl p1 ((p2 :: rest).getLastD [])) :=
  c9_amended c9GoodUrl c9GoodCanonical

/-- Claim C2: season eFG% and TS% come from summed made/attempted totals
— eFG% = (ΣFGM + 0.5·Σ3FGM)/ΣFGA and TS% = ΣPTS/(2·(ΣFGA + 0.44·ΣFTA)) —
not from averaging per-game percentages, and each is absent (not zero)
when its summed denominator is zero; the fixture with summed fga = 100,
fgm = 45, three_made = 10 has season eFG% = 0.50 while its per-game eFG%
values average to 13/32 ≠ 1/2. -/
theorem c2_theorem :
    (∀ df : List Game, 0 < sumFGA df →
      (summarize_overall df).efg =
        some (((sumFGM df : ℚ) + (1 / 2) * (sum3FGM df : ℚ)) /
          (sumFGA df : ℚ)))
    ∧ (∀ df : List Game, sumFGA df = 0 → (summarize_overall df).efg = none)
    ∧ (∀ df : List Game, 0 < seasonTsDenom df →
      (summarize_overall df).ts =
        some ((sumPTS df : ℚ) / (2 * seasonTsDenom df)))
    ∧ (∀ df : List Game, seasonTsDenom df = 0 →
      (summarize_overall df).ts = none)
    ∧ ((summarize_overall c2Fix).efg = some (1 / 2)
        ∧ meanOpt (c2Fix.map Game.efg) = some (13 / 32)
        ∧ ((1 : ℚ) / 2) ≠ 13 / 32) := by
  refine ⟨?_, ?_, ?_, ?_, ?_, ?_, by norm_num⟩
  · intro df h
    simp only [summarize_overall, seasonEfg]
    rw [if_pos h]
  · intro df h
    simp [summarize_overall, seasonEfg, h]
  · intro df h
    simp only [summarize_overall, seasonTs]
    rw [if_pos h]
  · intro df h
    simp [summarize_overall, seasonTs, h]
  · simp only [summarize_overall]
    norm_num [seasonEfg, sumFGA, sumFGM, sum3FGM, totOf, c2Fix, c2Game1,
      c2Game2, game0]
  · norm_num [meanOpt, pdMean, meanQ, Game.efg, Game.fgm, Game.fga, c2Fix,
      c2Game1, c2Game2, game0, List.filterMap]

/-- Claim C2, witness: the sum-based formulas applied to the concrete
two-game fixture and the zero-denominator cases at the empty season. -/
theorem c2_witness :
    (0 : ℤ) < sumFGA c2Fix ∧
    (summarize_overall c2Fix).efg =
      some (((sumFGM c2Fix : ℚ) + (1 / 2) * (sum3FGM c2Fix : ℚ)) /
        (sumFGA c2Fix : ℚ)) ∧
    (summarize_overall ([] : List Game)).efg = none ∧
    (summarize_overall ([] : List Game)).ts = none :=
  ⟨by decide, c2_theorem.1 c2Fix (by decide),
   c2_theorem.2.1 [] rfl,
   c2_theorem.2.2.2.1 [] (by norm_num [seasonTsDenom, sumFGA, sumFTA, totOf])⟩

/-- Claim C3: for every non-empty season, each per-36 season rate equals
the per-game mean of the stat divided by the mean minutes, times 36; on
the two-game fixture with differing minutes this gives 18, while the mean
of the per-game per-36 figures is 24. -/
theorem c3_theorem :
    (∀ df : List Game, df ≠ [] →
      ((summarize_overall df).per36PTS =
          some (meanQ (df.map (fun g => ((g.PTS : ℚ))))
            / meanQ (df.map (fun g => ((g.MIN : ℚ)))) * 36) ∧
        (summarize_overall df).per36Reb =
          some (meanQ (df.map (fun g => ((g.reb : ℚ))))
            / meanQ (df.map (fun g => ((g.MIN : ℚ)))) * 36) ∧
        (summarize_overall df).per36AS =
          some (meanQ (df.map (fun g => ((g.AS : ℚ))))
            / meanQ (df.map (fun g => ((g.MIN : ℚ)))) * 36) ∧
        (summarize_overall df).per36ST =
          some (meanQ (df.map (fun g => ((g.ST : ℚ))))
            / meanQ (df.map (fun g => ((g.MIN : ℚ)))) * 36) ∧
        (summarize_overall df).per36BS =
          some (meanQ (df.map (fun g => ((g.BS : ℚ))))
            / meanQ (df.map (fun g => ((g.MIN : ℚ)))) * 36) ∧
        (summarize_overall df).per36TO =
          some (meanQ (df.map (fun g => ((g.TO : ℚ))))
            / meanQ (df.map (fun g => ((g.MIN : ℚ)))) * 36) ∧
        (summarize_overall df).per36PF =
          some (meanQ (df.map (fun g => ((g.PF : ℚ))))
            / meanQ (df.map (fun g => ((g.MIN : ℚ)))) * 36)))
    ∧ ((summarize_overall c3Fix).per36PTS = some 18 ∧
        meanOpt (c3Fix.map Game.ptsPer36) = some 24 ∧ (18 : ℚ) ≠ 24) := by
  refine ⟨?_, ?_, ?_, by norm_num⟩
  case refine_2 =>
    simp only [summarize_overall]
    norm_num [per36Of, meanQ, c3Fix, c3Game1, c3Game2, game0]
  case refine_3 =>
    norm_num [meanOpt, pdMean, meanQ, Game.ptsPer36, c3Fix, c3Game1, c3Game2,
      game0, List.filterMap]
  intro df h
  have hne : df.isEmpty = false := by
    cases hw : df with
    | nil => exact absurd hw h
    | cons u us => rfl
  simp [summarize_overall, per36Of, hne]

/-- Claim C3, witness: the per-36 characterization applied to the
two-game fixture with differing minutes. -/
theorem c3_witness :
    c3Fix ≠ [] ∧
    (summarize_overall c3Fix).per36PTS =
      some (meanQ (c3Fix.map (fun g => ((g.PTS : ℚ))))
        / meanQ (c3Fix.map (fun g => ((g.MIN : ℚ)))) * 36) :=
  ⟨by decide, (c3_theorem.1 c3Fix (by decide)).1⟩

/-- Claim C6: every per-game metric with a zero denominator (eFG% at
fga = 0, TS% at fga + 0.44·ft_att = 0, per-36 rates at MIN = 0) is the
explicit missing marker `none`, not zero; group means exclude missing
values (dropping the `none` entries does not change `meanOpt`), the split
stat vectors are built from exactly these skipping means, and on a group
with eFG% values [1/2, missing] the mean is 1/2, not the zero-filled
1/4. -/
theorem c6_theorem :
    (∀ g : Game, g.fga = 0 → Game.efg g = none)
    ∧ (∀ g : Game, (g.fga : ℚ) + (11 / 25) * (g.ft_att : ℚ) = 0 →
        Game.ts g = none)
    ∧ (∀ g : Game, g.MIN = 0 →
        Game.ptsPer36 g = none ∧ Game.fgaPer36 g = none)
    ∧ (∀ l : List (Option ℚ),
        meanOpt l = meanOpt ((l.filterMap id).map some))
    ∧ (∀ gs : List Game, (groupStats gs).efg = meanOpt (gs.map Game.efg) ∧
        (groupStats gs).ts = meanOpt (gs.map Game.ts))
    ∧ (∀ (df : List Game) (b : Bool) (v : GroupStats),
        (b, v) ∈ (summarize_splits df).winsVsLosses →
          v = groupStats (winGroup df b))
    ∧ ((groupStats c6Fix).efg = some (1 / 2) ∧
        meanQ ((c6Fix.map Game.efg).map (fun o => o.getD 0)) = 1 / 4 ∧
        ((1 : ℚ) / 2) ≠ 1 / 4) := by
  refine ⟨?_, ?_, ?_, meanOpt_excludes, fun gs => ⟨rfl, rfl⟩, ?_, ?_, ?_,
    by norm_num⟩
  · intro g h
    simp [Game.efg, h]
  · intro g h
    simp [Game.ts, h]
  · intro g h
    constructor
    · simp [Game.ptsPer36, h]
    · simp [Game.fgaPer36, h]
  · intro df b v h
    simp only [summarize_splits, winSplit, List.mem_filterMap] at h
    obtain ⟨b', hb', heq⟩ := h
    split_ifs at heq with hemp
    have h2 := Option.some.inj heq
    have hb : b' = b := congrArg Prod.fst h2
    subst hb
    exact (congrArg Prod.snd h2).symm
  · norm_num [groupStats, meanOpt, pdMean, meanQ, Game.efg, Game.fga,
      Game.fgm, c6Fix, c6Game1, game0, List.filterMap]
  · norm_num [meanQ, Game.efg, Game.fga, Game.fgm, c6Fix, c6Game1, game0]

/-- Claim C6, witness: the zero-denominator conclusions at the all-zero
game record. -/
theorem c6_witness :
    Game.efg game0 = none ∧ Game.ts game0 = none ∧
    Game.ptsPer36 game0 = none ∧ Game.fgaPer36 game0 = none :=
  ⟨c6_theorem.1 game0 (by decide),
   c6_theorem.2.1 game0 (by norm_num [Game.fga, game0]),
   (c6_theorem.2.2.1 game0 rfl).1,
   (c6_theorem.2.2.1 game0 rfl).2⟩

/-- Claim C7: the minutes/points and minutes/game-score correlations
returned by `summarize_splits` are absent whenever there are fewer than
two games or either series has zero variance. -/
theorem c7_theorem :
    (∀ df : List Game,
      (df.length < 2 ∨ varSum (df.map (fun g => ((g.MIN : ℚ)))) = 0 ∨
        varSum (df.map (fun g => ((g.PTS : ℚ)))) = 0) →
      (summarize_splits df).corrMINPTS = none)
    ∧ (∀ df : List Game,
      (df.length < 2 ∨ varSum (df.map (fun g => ((g.MIN : ℚ)))) = 0 ∨
        varSum (df.map Game.gameScore) = 0) →
      (summarize_splits df).corrMINGameScore = none) := by
  constructor
  · intro df h
    have hcond : (df.map (fun g => ((g.MIN : ℚ)))).length < 2 ∨
        varSum (df.map (fun g => ((g.MIN : ℚ)))) = 0 ∨
        varSum (df.map (fun g => ((g.PTS : ℚ)))) = 0 := by
      rcases h with h | h | h
      · exact Or.inl (by simpa using h)
      · exact Or.inr (Or.inl h)
      · exact Or.inr (Or.inr h)
    simp only [summarize_splits, pearson]
    rw [if_pos hcond]
  · intro df h
    have hcond : (df.map (fun g => ((g.MIN : ℚ)))).length < 2 ∨
        varSum (df.map (fun g => ((g.MIN : ℚ)))) = 0 ∨
        varSum (df.map Game.gameScore) = 0 := by
      rcases h with h | h | h
      · exact Or.inl (by simpa using h)
      · exact Or.inr (Or.inl h)
      · exact Or.inr (Or.inr h)
    simp only [summarize_splits, pearson]
    rw [if_pos hcond]

/-- Claim C7, witness: on the constant-minutes two-game fixture the
minutes series has zero variance and both correlations are absent. -/
theorem c7_witness :
    varSum (c7Fix.map (fun g => ((g.MIN : ℚ)))) = 0 ∧
    (summarize_splits c7Fix).corrMINPTS = none ∧
    (summarize_splits c7Fix).corrMINGameScore = none := by
  have hvar : varSum (c7Fix.map (fun g => ((g.MIN : ℚ)))) = 0 := by
    norm_num [varSum, covSum, meanQ, c7Fix, c7Game1, c7Game2, game0]
  exact ⟨hvar, c7_theorem.1 c7Fix (Or.inr (Or.inl hvar)),
    c7_theorem.2 c7Fix (Or.inr (Or.inl hvar))⟩

/-- Claim C8: the name lookup returns an absent result — never an
exception, its model is total — when the name is empty after trimming,
when the request fails (the response is an error, which is swallowed),
or when the final location does not contain the player-URL pattern; and
every returned URL contains neither `?` nor `#` (query string and
fragment are stripped). -/
theorem c8_theorem :
    (∀ (name : Str) (resp : Except Unit Str), pyStripWS name = [] →
      find_usbasket_player_url_by_name name resp = none)
    ∧ (∀ (name : Str) (e : Unit),
      find_usbasket_player_url_by_name name (.error e) = none)
    ∧ (∀ (name u : Str), containsSeq searchPattern u = false →
      find_usbasket_player_url_by_name name (.ok u) = none)
    ∧ (∀ (name : Str) (resp : Except Unit Str) (u : Str),
      find_usbasket_player_url_by_name name resp = some u →
        '?' ∉ u ∧ '#' ∉ u) := by
  refine ⟨?_, ?_, ?_, ?_⟩
  · intro name resp h
    simp [find_usbasket_player_url_by_name, h]
  · intro name e
    by_cases hn : (pyStripWS name).isEmpty
    · simp [find_usbasket_player_url_by_name, hn]
    · simp [find_usbasket_player_url_by_name, hn]
  · intro name u hc
    by_cases hn : (pyStripWS name).isEmpty
    · simp [find_usbasket_player_url_by_name, hn]
    · simp [find_usbasket_player_url_by_name, hn, hc]
  · intro name resp u h
    by_cases hn : (pyStripWS name).isEmpty
    · simp [find_usbasket_player_url_by_name, hn] at h
    · cases resp with
      | error e => simp [find_usbasket_player_url_by_name, hn] at h
      | ok finalUrl =>
        by_cases hc : containsSeq searchPattern finalUrl
        · simp only [find_usbasket_player_url_by_name, hn, hc,
            Bool.false_eq_true, if_false, if_true] at h
          have h2 := Option.some.inj h
          rw [← h2]
          refine ⟨fun hq => ?_, fun hh => ?_⟩
          · exact splitFirst_fst_not_mem '?' finalUrl
              (splitFirst_fst_subset '#' '?' _ hq)
          · exact splitFirst_fst_not_mem '#' _ hh
        · simp [find_usbasket_player_url_by_name, hn, hc] at h

/-- Claim C8, witness: the lookup outcomes at a whitespace name, a failed
request, a non-matching final location, and the query/fragment-free form
of a returned URL. -/
theorem c8_witness :
    find_usbasket_player_url_by_name [' ', ' '] (.ok ['x']) = none ∧
    find_usbasket_player_url_by_name "LeBron James".toList (.error ()) =
      none ∧
    find_usbasket_player_url_by_name "LeBron James".toList
      (.ok "https://www.eurobasket.com/notfound".toList) = none ∧
    ('?' ∉ "https://basketball.usbasket.com/player/LeBron-James/52424".toList
      ∧ '#' ∉
        "https://basketball.usbasket.com/player/LeBron-James/52424".toList) :=
  ⟨c8_theorem.1 [' ', ' '] (.ok ['x']) (by decide),
   c8_theorem.2.1 "LeBron James".toList (),
   c8_theorem.2.2.1 "LeBron James".toList
     "https://www.eurobasket.com/notfound".toList (by decide),
   c8_theorem.2.2.2 "LeBron James".toList
     (.ok ("https://basketball.usbasket.com/player/LeBron-James/52424?utm=1#sec".toList))
     "https://basketball.usbasket.com/player/LeBron-James/52424".toList
     (by rfl)⟩

/-- Claim C4: among the candidates passing the three-header filter (in
document order), the Table Locator selects a candidate whose year key is
maximal, and every candidate before it in document order has a strictly
smaller key — so ties go to the first in document order; an absent year
sorts strictly below any real year (a selected absent-year candidate
forces all candidates to lack years, and `keyLe (some y) none` is false);
concretely, of candidates with years 2023 and 2024 the 2024 table wins,
and of two candidates tied at 2024 the earlier one wins. -/
theorem c4_theorem :
    (∀ tables : List HTMLTable, tableCandidates tables ≠ [] →
      ∃ c : Option ℕ × HTMLTable,
        find_latest_season_game_log_table tables = some c.2 ∧
        c ∈ tableCandidates tables ∧
        (∀ d ∈ tableCandidates tables, keyLe d.1 c.1 = true) ∧
        (∃ pre post, tableCandidates tables = pre ++ c :: post ∧
          ∀ d ∈ pre, keyLe c.1 d.1 = false) ∧
        (c.1 = none → ∀ d ∈ tableCandidates tables, d.1 = none))
    ∧ (∀ y : ℕ, keyLe (some y) none = false)
    ∧ find_latest_season_game_log_table [tbl2023, tbl2024] = some tbl2024
    ∧ find_latest_season_game_log_table [tblTieA, tblTieB] = some tblTieA := by
  refine ⟨?_, fun y => rfl, by decide, by decide⟩
  intro tables h
  obtain ⟨c, hc⟩ : ∃ c, selectMaxK (tableCandidates tables) = some c := by
    cases hs : selectMaxK (tableCandidates tables) with
    | none => exact absurd ((selectMaxK_eq_none _).mp hs) h
    | some c => exact ⟨c, rfl⟩
  refine ⟨c, ?_, selectMaxK_mem _ _ hc, selectMaxK_ge _ _ hc,
    selectMaxK_first _ _ hc, ?_⟩
  · simp only [find_latest_season_game_log_table]
    rw [head_sortDescK, hc]
    rfl
  · intro hcn d hd
    have hle := selectMaxK_ge _ _ hc d hd
    rw [hcn] at hle
    cases hd1 : d.1 with
    | none => rfl
    | some y => rw [hd1] at hle; simp [keyLe] at hle

/-- Claim C4, witness: the selection characterization applied to the
2023/2024 candidate pair. -/
theorem c4_witness :
    tableCandidates [tbl2023, tbl2024] ≠ [] ∧
    (∃ c : Option ℕ × HTMLTable,
      find_latest_season_game_log_table [tbl2023, tbl2024] = some c.2 ∧
      c ∈ tableCandidates [tbl2023, tbl2024] ∧
      (∀ d ∈ tableCandidates [tbl2023, tbl2024], keyLe d.1 c.1 = true) ∧
      (∃ pre post, tableCandidates [tbl2023, tbl2024] = pre ++ c :: post ∧
        ∀ d ∈ pre, keyLe c.1 d.1 = false) ∧
      (c.1 = none → ∀ d ∈ tableCandidates [tbl2023, tbl2024], d.1 = none)) :=
  ⟨by decide, c4_theorem.1 [tbl2023, tbl2024] (by decide)⟩
